import Mathlib

/-!
Shallow embedding of the PubMed paper fetcher
(`my_project/pubmed_utils.py`) and proofs of the specified properties.

The XML document handed to `parse_paper_details` is modelled as a tree of
elements (`Elem`), mirroring `xml.etree.ElementTree`: every element has a
tag, optional text, and a list of child elements.  Network interaction in
`fetch_pubmed_ids` / `fetch_paper_details` is modelled by passing in the
outcome of each of the three attempts of the retry loop explicitly.
-/

/-- An XML element: tag, optional text content, children.
Mirrors `xml.etree.ElementTree.Element` as used by the code. -/
inductive Elem where
  | mk (tag : String) (text : Option String) (children : List Elem)
deriving Repr

def Elem.tag : Elem → String
  | .mk t _ _ => t

def Elem.text : Elem → Option String
  | .mk _ x _ => x

def Elem.children : Elem → List Elem
  | .mk _ _ cs => cs

mutual

/-- All proper descendants of an element, in document (preorder) order.
This is the element sequence that the `.//` axis of `findall`/`findtext`
iterates over. -/
def allDesc : Elem → List Elem
  | .mk _ _ cs => allDescL cs

def allDescL : List Elem → List Elem
  | [] => []
  | e :: es => e :: (allDesc e ++ allDescL es)

end

/-- `element.findall(".//tag")`: all descendants with the given tag,
in document order. -/
def findallDesc (e : Elem) (t : String) : List Elem :=
  (allDesc e).filter (fun x => x.tag == t)

/-- First descendant with the given tag, as found by `findtext(".//tag")`. -/
def findDesc (e : Elem) (t : String) : Option Elem :=
  (findallDesc e t).head?

/-- `element.findtext(".//tag")` with no default: `none` when no element
matches; text of the first match otherwise (`""` when the element has no
text, as ElementTree does). -/
def findtextDesc (e : Elem) (t : String) : Option String :=
  (findDesc e t).map (fun el => el.text.getD "")

/-- `element.findtext(".//tag", d)`: like `findtextDesc` but with a
default for the no-match case. -/
def findtextDescD (e : Elem) (t : String) (d : String) : String :=
  match findDesc e t with
  | some el => el.text.getD ""
  | none => d

/-- First direct child with the given tag (`findtext("tag", ...)` uses a
child-axis path). -/
def findChild (e : Elem) (t : String) : Option Elem :=
  (e.children.filter (fun x => x.tag == t)).head?

/-- `element.findtext("tag", d)` over the child axis. -/
def findtextChildD (e : Elem) (t : String) (d : String) : String :=
  match findChild e t with
  | some el => el.text.getD ""
  | none => d

/-- `element.findtext(".//t1/t2", d)`: the first `t2` child of a `t1`
descendant, scanning `t1` descendants in document order. -/
def findtextPath2D (e : Elem) (t1 t2 : String) (d : String) : String :=
  match ((findallDesc e t1).flatMap
      (fun pd => pd.children.filter (fun c => c.tag == t2))).head? with
  | some el => el.text.getD ""
  | none => d

/-- Python truthiness coercion `x or d` for the string `x`. -/
def pyOr (x d : String) : String :=
  if x.isEmpty then d else x

/-- `v or d` where `v` is `findtext` with no default (`None` possible). -/
def textOr (v : Option String) (d : String) : String :=
  match v with
  | none => d
  | some s => pyOr s d

/-- A character matched by `[\w.-]` in the email pattern (ASCII fragment
of Python's `\w`, plus dot and hyphen). -/
def isEmailChar (c : Char) : Bool :=
  c.isAlphanum || c == '_' || c == '.' || c == '-'

/-- Attempt to match `[\w.-]+@[\w.-]+` at the head of the character list.
Because `@` is not an email character, the greedy match without
backtracking is exact here: a shorter first run would end on an email
character, never on `@`. -/
def matchEmailAt (cs : List Char) : Option (List Char) :=
  let run1 := cs.takeWhile isEmailChar
  if run1.isEmpty then none
  else
    match cs.dropWhile isEmailChar with
    | '@' :: rest2 =>
      let run2 := rest2.takeWhile isEmailChar
      if run2.isEmpty then none else some (run1 ++ '@' :: run2)
    | _ => none

/-- `re.search(r"[\w.-]+@[\w.-]+", s)` on the character list: try each
start position left to right, return the first (leftmost) match. -/
def searchEmailAux : List Char → Option (List Char)
  | [] => none
  | c :: cs =>
    match matchEmailAt (c :: cs) with
    | some m => some m
    | none => searchEmailAux cs

/-- `re.search(r"[\w.-]+@[\w.-]+", s)`, returning the matched text. -/
def searchEmail (s : String) : Option String :=
  (searchEmailAux s.data).map (fun cs => ⟨cs⟩)

/-- The fixed keyword list of `filter_non_academic_authors`. -/
def company_keywords : List String :=
  ["Inc", "Ltd", "Corp", "Corporation", "Pharma", "Biotech",
   "Biopharma", "HealthTech", "Lab", "Research Institute",
   "Company", "Therapeutics", "Healthcare"]

/-- `needle` begins the list `hay` (characterwise). -/
def startsWithL : List Char → List Char → Bool
  | [], _ => true
  | _ :: _, [] => false
  | a :: as_, b :: bs => a == b && startsWithL as_ bs

def containsSubAux (needle : List Char) : List Char → Bool
  | [] => startsWithL needle []
  | c :: cs => startsWithL needle (c :: cs) || containsSubAux needle cs

/-- Python's `needle in hay` substring test on strings. -/
def containsSub (hay needle : String) : Bool :=
  containsSubAux needle.data hay.data

/-- `any(keyword in affiliation for keyword in company_keywords)`. -/
def isNonAcademic (affiliation : String) : Bool :=
  company_keywords.any (fun kw => containsSub affiliation kw)

/-- `filter_non_academic_authors(authors, affiliations)`: walk the zip of
the two lists, keeping `(name, affiliation)` for every author whose
affiliation contains a company keyword.  The second pair component is the
`"company"` entry of the Python dict. -/
def filter_non_academic_authors : List String → List String → List (String × String)
  | n :: ns, a :: as_ =>
    if isNonAcademic a then (n, a) :: filter_non_academic_authors ns as_
    else filter_non_academic_authors ns as_
  | _, _ => []

/-- The normalized row built per `PubmedArticle` element (the Python dict
with its six fixed keys). -/
structure Paper where
  pubmedID : String
  title : String
  pubDate : String
  nonAcad : String
  companyAffs : String
  corrEmail : String
deriving Repr, DecidableEq

/-- `LastName, ForeName` display name of an author element. -/
def authorName (a : Elem) : String :=
  findtextChildD a "LastName" "" ++ ", " ++ findtextChildD a "ForeName" ""

/-- Affiliation text of an author element (`findtext(".//Affiliation", "")`). -/
def authorAff (a : Elem) : String :=
  findtextDescD a "Affiliation" ""

/-- The author elements of one article, in document order
(`article.findall(".//Author")`). -/
def articleAuthorElems (article : Elem) : List Elem :=
  findallDesc article "Author"

/-- The per-record email fold: start from `"None"`, and for each author
in document order overwrite with the regex match in their affiliation
when one exists. -/
def recordEmail (affiliations : List String) : String :=
  affiliations.foldl
    (fun cur aff =>
      match searchEmail aff with
      | some m => m
      | none => cur)
    "None"

/-- The date branch of `parse_paper_details`:
`if day and month and year: "Y/M/D" elif year: year` (else leave `""`).
Python truthiness on strings is non-emptiness. -/
def formatPubDate (year month day : String) : String :=
  if !day.isEmpty && !month.isEmpty && !year.isEmpty then
    year ++ "/" ++ month ++ "/" ++ day
  else if !year.isEmpty then year
  else ""

/-- Parse one `PubmedArticle` element into a `Paper`
(the loop body of `parse_paper_details`). -/
def parseArticle (article : Elem) : Paper :=
  let day := findtextPath2D article "PubDate" "Day" ""
  let month := findtextPath2D article "PubDate" "Month" ""
  let year := findtextPath2D article "PubDate" "Year" ""
  let authorElems := articleAuthorElems article
  let authors := authorElems.map authorName
  let affiliations := authorElems.map authorAff
  let filtered := filter_non_academic_authors authors affiliations
  { pubmedID := textOr (findtextDesc article "PMID") "Unknown"
    title := textOr (findtextDesc article "ArticleTitle") "Unknown"
    pubDate := formatPubDate year month day
    nonAcad :=
      if filtered.isEmpty then "None"
      else String.intercalate "; " (filtered.map Prod.fst)
    companyAffs :=
      if filtered.isEmpty then "None"
      else String.intercalate "; " (filtered.map Prod.snd)
    corrEmail := recordEmail affiliations }

/-- The error taxonomy of the spec, naming the error sites of the code
(`ValueError` for bad input and bad structure, `RuntimeError` on retry
exhaustion). -/
inductive PubMedError where
  | invalidInput (msg : String)
  | transientFailure (msg : String)
  | malformedResponse (msg : String)
deriving Repr, DecidableEq

/-- `parse_paper_details(xml_data)`.  The argument is the result of
`ET.fromstring`: `none` when the text fails to parse as XML (the
`ET.ParseError` branch, re-raised as `ValueError`), `some root` otherwise. -/
def parse_paper_details (parsed : Option Elem) : Except PubMedError (List Paper) :=
  match parsed with
  | none => .error (.malformedResponse "Failed to parse XML data")
  | some root => .ok ((findallDesc root "PubmedArticle").map parseArticle)

/-- A Python whitespace character (`str.strip` default set, ASCII part). -/
def isPySpace (c : Char) : Bool :=
  c == ' ' || c == '\t' || c == '\n' || c == '\r' || c == '\x0b' || c == '\x0c'

/-- Python's `s.strip()`. -/
def pyStrip (s : String) : String :=
  ⟨((s.data.dropWhile isPySpace).reverse.dropWhile isPySpace).reverse⟩

/-- Outcome of one `requests.get` attempt in `fetch_pubmed_ids`.
`transport e` is a `requests.exceptions.RequestException` (network error
or, via `raise_for_status`, a non-2xx status) with message `e`;
`response env` is a 2xx JSON response, where `env` is `some ids` when the
body has the `esearchresult.idlist` envelope and `none` when it lacks it. -/
inductive SearchOutcome where
  | transport (e : String)
  | response (env : Option (List String))
deriving Repr, DecidableEq

/-- One attempt of the `fetch_pubmed_ids` loop body: either a final
result (`Sum.inl`) or a caught transport error to maybe retry
(`Sum.inr e`). The missing-envelope `ValueError` is not a
`RequestException`, so it is a final result, never retried. -/
def searchStep (o : SearchOutcome) : Sum (Except PubMedError (List String)) String :=
  match o with
  | .transport e => .inr e
  | .response none =>
    .inl (.error (.malformedResponse "Invalid response structure from PubMed API."))
  | .response (some ids) => .inl (.ok ids)

/-- The `for attempt in range(3)` loop of `fetch_pubmed_ids`, unrolled:
the three arguments are the outcomes the network would produce on the
three attempts.  Returns the result together with the number of network
calls actually made. -/
def searchAttempts (o0 o1 o2 : SearchOutcome) :
    Except PubMedError (List String) × Nat :=
  match searchStep o0 with
  | .inl r => (r, 1)
  | .inr _ =>
    match searchStep o1 with
    | .inl r => (r, 2)
    | .inr _ =>
      match searchStep o2 with
      | .inl r => (r, 3)
      | .inr e =>
        (.error (.transientFailure
          ("Failed to fetch PubMed IDs after 3 attempts: " ++ e)), 3)

/-- `fetch_pubmed_ids(query)`: validate the query, then run the retry
loop against the given per-attempt network outcomes.  Returns the result
and the number of network calls made. -/
def fetch_pubmed_ids (query : String) (o0 o1 o2 : SearchOutcome) :
    Except PubMedError (List String) × Nat :=
  if pyStrip query == "" then
    (.error (.invalidInput "Query cannot be empty or whitespace."), 0)
  else searchAttempts o0 o1 o2

/-- Outcome of one `requests.get` attempt in `fetch_paper_details`:
a transport error, or a 2xx response whose body text parses as XML to
`some root` (or fails to parse: `none`). -/
inductive FetchOutcome where
  | transport (e : String)
  | response (doc : Option Elem)
deriving Repr

/-- One attempt of the `fetch_paper_details` loop body.  On a response
the body is handed to `parse_paper_details`; the `ValueError` it may
raise is not a `RequestException`, so it propagates without retry. -/
def fetchStep (o : FetchOutcome) : Sum (Except PubMedError (List Paper)) String :=
  match o with
  | .transport e => .inr e
  | .response doc => .inl (parse_paper_details doc)

/-- The `for attempt in range(3)` loop of `fetch_paper_details`, unrolled. -/
def fetchAttempts (o0 o1 o2 : FetchOutcome) :
    Except PubMedError (List Paper) × Nat :=
  match fetchStep o0 with
  | .inl r => (r, 1)
  | .inr _ =>
    match fetchStep o1 with
    | .inl r => (r, 2)
    | .inr _ =>
      match fetchStep o2 with
      | .inl r => (r, 3)
      | .inr e =>
        (.error (.transientFailure
          ("Failed to fetch paper details after 3 attempts: " ++ e)), 3)

/-- `fetch_paper_details(pubmed_ids)`: empty input short-circuits to `[]`
with no network call; otherwise run the retry loop. -/
def fetch_paper_details (pubmed_ids : List String) (o0 o1 o2 : FetchOutcome) :
    Except PubMedError (List Paper) × Nat :=
  if pubmed_ids.isEmpty then (.ok [], 0)
  else fetchAttempts o0 o1 o2

/-- The fixed six-column header of `save_to_csv` (`fieldnames`). -/
def csvFieldnames : List String :=
  ["PubmedID", "Title", "Publication Date", "Non-academic Author(s)",
   "Company Affiliation(s)", "Corresponding Author Email"]

/-- The Python dict built per article in `parse_paper_details`, as an
ordered key/value list: exactly these six keys, in this order. -/
def paperDict (p : Paper) : List (String × String) :=
  [("PubmedID", p.pubmedID), ("Title", p.title),
   ("Publication Date", p.pubDate), ("Non-academic Author(s)", p.nonAcad),
   ("Company Affiliation(s)", p.companyAffs),
   ("Corresponding Author Email", p.corrEmail)]

/-- `save_to_csv`: the header row followed by one row of field values per
paper, columns in `csvFieldnames` order (what `DictWriter.writeheader`
plus `writerows` emit). -/
def save_to_csv (papers : List Paper) : List (List String) :=
  csvFieldnames :: papers.map (fun p => (paperDict p).map Prod.snd)

/-- Spec-side description of the final `CorrespondingEmail` value: the
email matched in the affiliation of the last author (in document order)
whose affiliation contains a match, `none` when no affiliation matches.
Used to compare the overwrite-on-match fold against the spec's words. -/
def lastMatchedEmail : List String → Option String
  | [] => none
  | aff :: rest =>
    match lastMatchedEmail rest with
    | some m => some m
    | none => searchEmail aff

/-! ### Example documents used by counterexamples and witnesses -/

/-- An article whose `PubDate` has a year and a month but no day. -/
def exArticleYM : Elem :=
  .mk "PubmedArticle" none
    [.mk "MedlineCitation" none
      [.mk "PMID" (some "123") [],
       .mk "Article" none
        [.mk "ArticleTitle" (some "Sample") [],
         .mk "Journal" none
          [.mk "PubDate" none
            [.mk "Year" (some "2020") [], .mk "Month" (some "Jan") []]]]]]

/-- An article with no author elements and no date. -/
def exNoAuthors : Elem :=
  .mk "PubmedArticle" none [.mk "MedlineCitation" none [.mk "PMID" (some "7") []]]

/-- A document containing two article elements. -/
def exDocTwo : Elem :=
  .mk "PubmedArticleSet" none [exNoAuthors, exArticleYM]

/-- A document containing no article elements. -/
def exDocEmpty : Elem :=
  .mk "PubmedArticleSet" none [.mk "Other" (some "x") []]

/-- The flagged (non-academic) authors of one article: the classifier
applied to the name and affiliation lists built by the author loop of
`parse_paper_details`. -/
def flaggedAuthors (article : Elem) : List (String × String) :=
  filter_non_academic_authors
    ((articleAuthorElems article).map authorName)
    ((articleAuthorElems article).map authorAff)

/-! ### Helper lemmas -/

/-- The author-filter loop is the filter of the zip by the keyword test. -/
theorem filterNA_eq (ns : List String) :
    ∀ as_ : List String,
      filter_non_academic_authors ns as_ =
        (ns.zip as_).filter (fun p => isNonAcademic p.2) := by
  induction ns with
  | nil => intro as_; cases as_ <;> rfl
  | cons n ns ih =>
    intro as_
    cases as_ with
    | nil => rfl
    | cons a as2 =>
      simp only [filter_non_academic_authors, List.zip_cons_cons, List.filter_cons]
      cases h : isNonAcademic a <;> simp [h, ih]

/-- The overwrite-on-match fold computes the last matched email
(falling back to the accumulator when no affiliation matches). -/
theorem recordEmail_foldl (affs : List String) :
    ∀ acc : String,
      affs.foldl
          (fun cur aff =>
            match searchEmail aff with
            | some m => m
            | none => cur) acc =
        (match lastMatchedEmail affs with
         | some m => m
         | none => acc) := by
  induction affs with
  | nil => intro acc; rfl
  | cons a rest ih =>
    intro acc
    simp only [List.foldl_cons, ih]
    cases h : lastMatchedEmail rest with
    | some m => simp [lastMatchedEmail, h]
    | none => simp [lastMatchedEmail, h]

/-- If no affiliation matches the email pattern, the last matched email
is `none`. -/
theorem lastMatchedEmail_eq_none (affs : List String)
    (h : ∀ aff ∈ affs, searchEmail aff = none) :
    lastMatchedEmail affs = none := by
  induction affs with
  | nil => rfl
  | cons a rest ih =>
    have ha := h a (by simp)
    have hr := ih (fun aff haff => h aff (by simp [haff]))
    simp [lastMatchedEmail, hr, ha]

/-- Zipping the two projections of a pair list reconstructs it. -/
theorem zip_proj {α β : Type} (l : List (α × β)) :
    (l.map Prod.fst).zip (l.map Prod.snd) = l := by
  induction l with
  | nil => rfl
  | cons p rest ih => simp [ih]

theorem isEmpty_empty_str : ("" : String).isEmpty = true := rfl

theorem isEmpty_eq_false {s : String} (h : s ≠ "") : s.isEmpty = false := by
  cases he : s.isEmpty
  · rfl
  · exact absurd ((String.isEmpty_iff s).mp he) h

/-! ### Claims -/

/-- C1, counterexample: a record whose `PubDate` has year `"2020"` and
month `"Jan"` but no day yields `PublicationDate = "2020"`, not the empty
string the claim predicts: the `elif year:` branch fires whenever the
year alone is non-empty, regardless of the month. -/
theorem c1_counterexample :
    findtextPath2D exArticleYM "PubDate" "Year" "" = "2020" ∧
    findtextPath2D exArticleYM "PubDate" "Month" "" = "Jan" ∧
    findtextPath2D exArticleYM "PubDate" "Day" "" = "" ∧
    (parseArticle exArticleYM).pubDate = "2020" ∧
    (parseArticle exArticleYM).pubDate ≠ "" :=
  ⟨rfl, rfl, rfl, rfl, by decide⟩

/-- C1, amended: the date field is `YEAR/MONTH/DAY` when all three parts
are present and non-empty; otherwise it is the year alone whenever the
year is non-empty (even when a month or day is also present); and it is
empty exactly when the year is empty. -/
theorem c1_amended :
    (∀ article : Elem,
      (parseArticle article).pubDate =
        formatPubDate (findtextPath2D article "PubDate" "Year" "")
          (findtextPath2D article "PubDate" "Month" "")
          (findtextPath2D article "PubDate" "Day" "")) ∧
    (∀ year month day : String,
      (day ≠ "" → month ≠ "" → year ≠ "" →
        formatPubDate year month day = year ++ "/" ++ month ++ "/" ++ day) ∧
      (year ≠ "" → (day = "" ∨ month = "") →
        formatPubDate year month day = year) ∧
      (year = "" → formatPubDate year month day = "")) := by
  refine ⟨fun article => rfl, fun year month day => ⟨?_, ?_, ?_⟩⟩
  · intro hd hm hy
    simp [formatPubDate, isEmpty_eq_false hd, isEmpty_eq_false hm, isEmpty_eq_false hy]
  · intro hy hdm
    rcases hdm with hd | hm
    · simp [formatPubDate, hd, isEmpty_empty_str, isEmpty_eq_false hy]
    · simp [formatPubDate, hm, isEmpty_empty_str, isEmpty_eq_false hy]
  · intro hy
    simp [formatPubDate, hy, isEmpty_empty_str]

/-- C1, witness for the amended claim at a concrete record:
year `"2020"`, month `"Jan"`, no day formats to `"2020"`. -/
theorem c1_witness :
    formatPubDate "2020" "Jan" "" = "2020" ∧
    (parseArticle exArticleYM).pubDate = formatPubDate "2020" "Jan" "" :=
  ⟨(c1_amended.2 "2020" "Jan" "").2.1 (by decide) (Or.inl rfl),
   (c1_amended.1 exArticleYM).trans rfl⟩

/-- C2: an author lands in the non-academic list exactly when their
affiliation contains some company keyword as a (case-sensitive, plain)
substring; the company entry is the unmodified affiliation; and the match
has no word boundary: `"Lab"` matches inside `"Labyrinth"`. -/
theorem c2 :
    (∀ (authors affs : List String) (name aff : String),
      (name, aff) ∈ filter_non_academic_authors authors affs ↔
        ((name, aff) ∈ authors.zip affs ∧
          ∃ kw ∈ company_keywords, containsSub aff kw = true)) ∧
    containsSub "Labyrinth" "Lab" = true := by
  constructor
  · intro authors affs name aff
    rw [filterNA_eq authors affs, List.mem_filter]
    simp [isNonAcademic, List.any_eq_true]
  · decide

/-- C2, witness: `"Acme Pharma Inc, Boston"` is classified non-academic
and appears unmodified as the company entry. -/
theorem c2_witness :
    ("Doe, Jane", "Acme Pharma Inc, Boston") ∈
      filter_non_academic_authors ["Doe, Jane"] ["Acme Pharma Inc, Boston"] :=
  (c2.1 ["Doe, Jane"] ["Acme Pharma Inc, Boston"]
      "Doe, Jane" "Acme Pharma Inc, Boston").mpr
    ⟨by decide, "Pharma", by decide, by decide⟩

/-- C3: the `CorrespondingEmail` of a record is the email matched in the
affiliation of the last author (in document order) whose affiliation
contains a match of the email pattern, and `"None"` when no author's
affiliation contains a match. -/
theorem c3 (article : Elem) :
    ((parseArticle article).corrEmail =
      (match lastMatchedEmail ((articleAuthorElems article).map authorAff) with
       | some m => m
       | none => "None")) ∧
    ((∀ aff ∈ (articleAuthorElems article).map authorAff, searchEmail aff = none) →
      (parseArticle article).corrEmail = "None") := by
  have h1 : (parseArticle article).corrEmail =
      recordEmail ((articleAuthorElems article).map authorAff) := rfl
  constructor
  · rw [h1]
    exact recordEmail_foldl _ "None"
  · intro h
    rw [h1]
    unfold recordEmail
    rw [recordEmail_foldl, lastMatchedEmail_eq_none _ h]

/-- C3, witness: a record with no authors has `CorrespondingEmail = "None"`. -/
theorem c3_witness : (parseArticle exNoAuthors).corrEmail = "None" :=
  (c3 exNoAuthors).2 (fun aff h => absurd h (List.not_mem_nil aff))

/-- C4: parsing a well-formed document succeeds and returns one row per
`PubmedArticle` element, in document order: the row count equals the
record count and the i-th row is the parse of the i-th record. -/
theorem c4 (root : Elem) :
    parse_paper_details (some root) =
      .ok ((findallDesc root "PubmedArticle").map parseArticle) ∧
    (∀ rows : List Paper, parse_paper_details (some root) = .ok rows →
      rows.length = (findallDesc root "PubmedArticle").length ∧
      ∀ (i : Fin rows.length) (j : Fin (findallDesc root "PubmedArticle").length),
        (i : Nat) = (j : Nat) →
        rows.get i = parseArticle ((findallDesc root "PubmedArticle").get j)) := by
  refine ⟨rfl, ?_⟩
  intro rows h
  have hrows : rows = (findallDesc root "PubmedArticle").map parseArticle := by
    have h2 : (Except.ok ((findallDesc root "PubmedArticle").map parseArticle) :
        Except PubMedError (List Paper)) = .ok rows := h
    exact (Except.ok.inj h2).symm
  subst hrows
  refine ⟨List.length_map _ _, ?_⟩
  intro i j hij
  simp [List.get_eq_getElem, hij]

/-- C4, witness: a document with two record elements parses to exactly
two rows, the first being the parse of the first record. -/
theorem c4_witness :
    ((findallDesc exDocTwo "PubmedArticle").map parseArticle).length = 2 ∧
    ((findallDesc exDocTwo "PubmedArticle").map parseArticle).get
        ⟨0, by decide⟩ = parseArticle exNoAuthors := by
  have h := (c4 exDocTwo).2 ((findallDesc exDocTwo "PubmedArticle").map parseArticle) rfl
  refine ⟨h.1.trans (by rfl), ?_⟩
  exact (h.2 ⟨0, by decide⟩ ⟨0, by decide⟩ rfl).trans rfl

/-- C5: extraction fails (with the malformed-response error) exactly when
the input fails to parse as XML; a parseable document with zero record
elements yields the empty row list, not an error. -/
theorem c5 :
    (∀ parsed : Option Elem,
      (∃ e, parse_paper_details parsed = .error e) ↔ parsed = none) ∧
    (∃ msg, parse_paper_details none = .error (.malformedResponse msg)) ∧
    (∀ root : Elem, findallDesc root "PubmedArticle" = [] →
      parse_paper_details (some root) = .ok []) := by
  refine ⟨?_, ⟨"Failed to parse XML data", rfl⟩, ?_⟩
  · intro parsed
    cases parsed with
    | none => simp [parse_paper_details]
    | some root => simp [parse_paper_details]
  · intro root h
    simp [parse_paper_details, h]

/-- C5, witness: a concrete record-free document parses to `[]`, and the
unparseable input yields an error. -/
theorem c5_witness :
    parse_paper_details (some exDocEmpty) = .ok [] ∧
    (∃ e, parse_paper_details none = .error e) :=
  ⟨c5.2.2 exDocEmpty rfl, (c5.1 none).mpr rfl⟩

/-- C6: in both the ID lookup and the record fetch, transport failures
are retried up to 2 additional times (3 attempts total) and exhaustion
fails with the transient-failure error carrying the last cause, while a
malformed success response errors immediately on whichever attempt
produced it and consumes no further attempts. -/
theorem c6 :
    (∀ e0 e1 e2 : String,
      searchAttempts (.transport e0) (.transport e1) (.transport e2) =
        (.error (.transientFailure
          ("Failed to fetch PubMed IDs after 3 attempts: " ++ e2)), 3)) ∧
    (∀ (ids : List String) (o1 o2 : SearchOutcome),
      searchAttempts (.response (some ids)) o1 o2 = (.ok ids, 1)) ∧
    (∀ (e0 : String) (ids : List String) (o2 : SearchOutcome),
      searchAttempts (.transport e0) (.response (some ids)) o2 = (.ok ids, 2)) ∧
    (∀ (o1 o2 : SearchOutcome),
      searchAttempts (.response none) o1 o2 =
        (.error (.malformedResponse
          "Invalid response structure from PubMed API."), 1)) ∧
    (∀ (e0 : String) (o2 : SearchOutcome),
      searchAttempts (.transport e0) (.response none) o2 =
        (.error (.malformedResponse
          "Invalid response structure from PubMed API."), 2)) ∧
    (∀ e0 e1 e2 : String,
      fetchAttempts (.transport e0) (.transport e1) (.transport e2) =
        (.error (.transientFailure
          ("Failed to fetch paper details after 3 attempts: " ++ e2)), 3)) ∧
    (∀ (doc : Option Elem) (o1 o2 : FetchOutcome),
      fetchAttempts (.response doc) o1 o2 = (parse_paper_details doc, 1)) ∧
    (∀ (e0 : String) (doc : Option Elem) (o2 : FetchOutcome),
      fetchAttempts (.transport e0) (.response doc) o2 =
        (parse_paper_details doc, 2)) :=
  ⟨fun _ _ _ => rfl, fun _ _ _ => rfl, fun _ _ _ => rfl, fun _ _ => rfl,
   fun _ _ => rfl, fun _ _ _ => rfl, fun _ _ _ => rfl, fun _ _ _ => rfl⟩

/-- C7: an empty or whitespace-only query makes the ID lookup fail with
the invalid-input error before any network call (the collaborator is
invoked zero times), whatever the network would have answered. -/
theorem c7 (q : String) (o0 o1 o2 : SearchOutcome) (h : pyStrip q = "") :
    fetch_pubmed_ids q o0 o1 o2 =
      (.error (.invalidInput "Query cannot be empty or whitespace."), 0) := by
  simp [fetch_pubmed_ids, h]

/-- C7, witness: the whitespace-only query `" "` is rejected with zero
network calls. -/
theorem c7_witness :
    pyStrip " " = "" ∧
    fetch_pubmed_ids " " (.transport "a") (.transport "b") (.transport "c") =
      (.error (.invalidInput "Query cannot be empty or whitespace."), 0) :=
  ⟨rfl, c7 " " (.transport "a") (.transport "b") (.transport "c") rfl⟩

/-- C8: the record fetch on the empty id list returns the empty sequence
with zero collaborator calls; on any non-empty id list whose first
attempt produces a response it makes exactly one call. -/
theorem c8 :
    (∀ o0 o1 o2 : FetchOutcome, fetch_paper_details [] o0 o1 o2 = (.ok [], 0)) ∧
    (∀ (ids : List String) (doc : Option Elem) (o1 o2 : FetchOutcome), ids ≠ [] →
      fetch_paper_details ids (.response doc) o1 o2 = (parse_paper_details doc, 1)) := by
  constructor
  · intro o0 o1 o2
    rfl
  · intro ids doc o1 o2 h
    cases ids with
    | nil => exact absurd rfl h
    | cons i rest => rfl

/-- C8, witness: fetching for the id list `["1"]` whose one response
fails to parse makes exactly one call and surfaces the parse error. -/
theorem c8_witness :
    fetch_paper_details ["1"] (.response none) (.transport "a") (.transport "b") =
      (.error (.malformedResponse "Failed to parse XML data"), 1) :=
  c8.2 ["1"] none (.transport "a") (.transport "b") (by decide)

/-- C9: the rendered non-academic-author and company-affiliation fields
come from the same flagged-author list: equal lengths, pairwise aligned
(zipping the two projections reconstructs the flagged pairs, so the i-th
company is the affiliation of the i-th flagged author), joined with
`"; "`, and both fields are `"None"` when no author is flagged. -/
theorem c9 (article : Elem) :
    ((parseArticle article).nonAcad =
      (if (flaggedAuthors article).isEmpty then "None"
       else String.intercalate "; " ((flaggedAuthors article).map Prod.fst))) ∧
    ((parseArticle article).companyAffs =
      (if (flaggedAuthors article).isEmpty then "None"
       else String.intercalate "; " ((flaggedAuthors article).map Prod.snd))) ∧
    ((flaggedAuthors article).map Prod.fst).length =
      ((flaggedAuthors article).map Prod.snd).length ∧
    ((flaggedAuthors article).map Prod.fst).zip
        ((flaggedAuthors article).map Prod.snd) = flaggedAuthors article ∧
    (flaggedAuthors article = [] →
      (parseArticle article).nonAcad = "None" ∧
      (parseArticle article).companyAffs = "None") := by
  refine ⟨rfl, rfl, by simp, zip_proj _, ?_⟩
  intro h
  constructor
  · have h1 : (parseArticle article).nonAcad =
        (if (flaggedAuthors article).isEmpty then "None"
         else String.intercalate "; " ((flaggedAuthors article).map Prod.fst)) := rfl
    rw [h1, h]
    rfl
  · have h2 : (parseArticle article).companyAffs =
        (if (flaggedAuthors article).isEmpty then "None"
         else String.intercalate "; " ((flaggedAuthors article).map Prod.snd)) := rfl
    rw [h2, h]
    rfl

/-- C9, witness: a record with no flagged authors renders both fields as
`"None"`. -/
theorem c9_witness :
    (parseArticle exNoAuthors).nonAcad = "None" ∧
    (parseArticle exNoAuthors).companyAffs = "None" :=
  (c9 exNoAuthors).2.2.2.2 rfl

/-- C10: every row produced by extraction carries exactly the six fixed
fields, in header order, so the CSV output fills all six columns of every
row (header included). -/
theorem c10 (root : Elem) (rows : List Paper)
    (_h : parse_paper_details (some root) = .ok rows) :
    (∀ p ∈ rows, (paperDict p).map Prod.fst = csvFieldnames) ∧
    (∀ r ∈ save_to_csv rows, r.length = csvFieldnames.length) ∧
    csvFieldnames.length = 6 := by
  refine ⟨fun p _ => rfl, ?_, rfl⟩
  intro r hr
  simp only [save_to_csv, List.mem_cons, List.mem_map] at hr
  rcases hr with hr | ⟨p, _, hp⟩
  · rw [hr]
  · rw [← hp]
    rfl

/-- C10, witness: the rows extracted from a concrete document carry the
six header keys and serialize to six-column rows. -/
theorem c10_witness :
    (paperDict (parseArticle exNoAuthors)).map Prod.fst = csvFieldnames ∧
    csvFieldnames.length = 6 := by
  have h := c10 (Elem.mk "PubmedArticleSet" none [exNoAuthors])
      [parseArticle exNoAuthors] rfl
  exact ⟨h.1 (parseArticle exNoAuthors) (by simp), h.2.2⟩
